import Mathlib

/-!
Shallow embedding of the tree-map dashboard script (src/streamlit_app.py).

Coordinates are modelled as rationals.  Python dictionary access
`element["lat"]` on a possibly-missing key is modelled by `Option`
fields: a `none` field means the key is absent and the access raises
`KeyError`, which aborts the whole list comprehension; hence the
record-shaping functions return `Option (List _)`, with `none`
standing for an uncaught exception.
-/

/-- A shaped tree row: `{"lat": ..., "lon": ...}` (line 60). -/
structure TreeRow where
  lat : ℚ
  lon : ℚ
deriving DecidableEq, Repr

/-- One point of a way geometry: `{"lat": ..., "lon": ...}`. -/
structure GeoPoint where
  lat : ℚ
  lon : ℚ
deriving DecidableEq, Repr

/-- A raw Overpass element; `none` models an absent JSON key. -/
structure OsmElement where
  lat : Option ℚ := none
  lon : Option ℚ := none
  geometry : Option (List GeoPoint) := none
deriving DecidableEq, Repr

/-- A shaped forest polygon: `{"coordinates": [[(lon, lat), ...]]}` (line 68). -/
structure ForestPolygon where
  coordinates : List (List (ℚ × ℚ))
deriving DecidableEq, Repr

/-- Parsed JSON body; a missing `elements` key is `none` (lines 61, 69 use `.get`). -/
structure ApiResponse where
  elements : Option (List OsmElement) := none
deriving DecidableEq, Repr

/-- An HTTP response: status code plus parsed JSON body. -/
structure HttpResponse where
  status_code : ℕ
  body : ApiResponse
deriving DecidableEq, Repr

/-- `data.get("elements", [])` (lines 61 and 69). -/
def getElements (r : ApiResponse) : List OsmElement :=
  r.elements.getD []

/-- A Python list comprehension over `f`: left to right, aborting with
`none` on the first element where `f` raises. -/
def optionMapList (f : α → Option β) : List α → Option (List β)
  | [] => some []
  | a :: as =>
    match f a with
    | none => none
    | some b =>
      match optionMapList f as with
      | none => none
      | some bs => some (b :: bs)

/-- The body of the tree comprehension (line 60):
`{"lat": element["lat"], "lon": element["lon"]}`; raises on a missing key. -/
def elemToRow (e : OsmElement) : Option TreeRow :=
  match e.lat, e.lon with
  | some la, some lo => some ⟨la, lo⟩
  | _, _ => none

/-- The tree comprehension (lines 59-62). -/
def tree_locations (elements : List OsmElement) : Option (List TreeRow) :=
  optionMapList elemToRow elements

/-- The body of the forest comprehension (line 68):
`{"coordinates": [[(p["lon"], p["lat"]) for p in element["geometry"]]]}`;
raises on a missing `geometry` key. -/
def elemToPolygon (e : OsmElement) : Option ForestPolygon :=
  match e.geometry with
  | some g => some ⟨[g.map fun p => (p.lon, p.lat)]⟩
  | none => none

/-- The forest comprehension (lines 67-70). -/
def forest_polygons (elements : List OsmElement) : Option (List ForestPolygon) :=
  optionMapList elemToPolygon elements

/-- Lines 53-63: `tree_locations` starts `[]` and is filled only on a 200
response; a shaping `KeyError` (inner `none`) aborts the script. -/
def shapeTreeData (resp : HttpResponse) : Option (List TreeRow) :=
  if resp.status_code = 200 then tree_locations (getElements resp.body)
  else some []

/-- Lines 55, 65-70: `forest_polygons` starts `[]` and is filled only on a
200 response. -/
def shapeForestData (resp : HttpResponse) : Option (List ForestPolygon) :=
  if resp.status_code = 200 then forest_polygons (getElements resp.body)
  else some []

/- Helper lemmas about the comprehension model. -/

theorem optionMapList_all_some (f : α → Option β) :
    ∀ l : List α, (∀ a ∈ l, (f a).isSome) →
      ∃ bs, optionMapList f l = some bs ∧ List.Forall₂ (fun a b => f a = some b) l bs := by
  intro l
  induction l with
  | nil => exact fun _ => ⟨[], rfl, List.Forall₂.nil⟩
  | cons a as ih =>
    intro h
    obtain ⟨b, hb⟩ := Option.isSome_iff_exists.mp (h a (List.mem_cons_self a as))
    obtain ⟨bs, hbs, hforall⟩ := ih fun x hx => h x (List.mem_cons_of_mem a hx)
    refine ⟨b :: bs, ?_, List.Forall₂.cons hb hforall⟩
    simp [optionMapList, hb, hbs]

/-!
Pandas model.  A data frame is the shaped row list plus any extra
columns later assigned to it.  Since `df_temp = df_trees.copy()`
versus `df_temp = df_trees` only differ under in-place column
assignment, frames live in a small heap of numbered frame objects and
column assignment mutates the addressed frame in place.
-/

/-- A pandas data frame: base rows plus assigned extra columns. -/
structure Frame where
  rows : List TreeRow
  extraCols : List (String × List ℚ) := []
deriving DecidableEq, Repr

/-- In-place column assignment `f[name] = vals`. -/
def Frame.setCol (f : Frame) (name : String) (vals : List ℚ) : Frame :=
  ⟨f.rows, f.extraCols ++ [(name, vals)]⟩

/-- The value of column `name` at row `i`, when present. -/
def Frame.colVal (f : Frame) (name : String) (i : ℕ) : Option ℚ :=
  match f.extraCols.lookup name with
  | some vals => vals.get? i
  | none => none

/-- A heap of frame objects addressed by position. -/
structure PdHeap where
  frames : List Frame
deriving DecidableEq, Repr

/-- Dereference a frame pointer. -/
def PdHeap.get (h : PdHeap) (r : ℕ) : Frame :=
  h.frames.getD r ⟨[], []⟩

/-- `df.copy()` bound to a fresh name: allocate a new frame object. -/
def PdHeap.alloc (h : PdHeap) (f : Frame) : PdHeap × ℕ :=
  (⟨h.frames ++ [f]⟩, h.frames.length)

/-- In-place column assignment through a frame pointer. -/
def PdHeap.setColAt (h : PdHeap) (r : ℕ) (name : String) (vals : List ℚ) : PdHeap :=
  ⟨h.frames.set r ((h.get r).setCol name vals)⟩

/-- Line 73: `(30 - df_trees.index % 5).astype(float)` for `n` rows. -/
def tempColumn (n : ℕ) : List ℚ :=
  (List.range n).map fun i => (30 : ℚ) - ((i % 5 : ℕ) : ℚ)

/-- Line 75: `(100 - df_trees.index % 50).astype(float)` for `n` rows. -/
def aqiColumn (n : ℕ) : List ℚ :=
  (List.range n).map fun i => (100 : ℚ) - ((i % 50 : ℕ) : ℚ)

/-- Lines 72-75: derive `df_temp` and `df_aqi` from the frame at
`treesRef`; returns the updated heap and the two new frame pointers. -/
def deriveSamples (h : PdHeap) (treesRef : ℕ) : PdHeap × ℕ × ℕ :=
  let p1 := h.alloc (h.get treesRef)
  let h2 := p1.1.setColAt p1.2 "temperature" (tempColumn (p1.1.get treesRef).rows.length)
  let p3 := h2.alloc (h2.get treesRef)
  let h4 := p3.1.setColAt p3.2 "aqi" (aqiColumn (p3.1.get treesRef).rows.length)
  (h4, p1.2, p3.2)

/-- Run lines 72-75 on a heap holding only `df_trees` built from `rows`;
returns the final `df_trees`, `df_temp` and `df_aqi` frames. -/
def runDerivation (rows : List TreeRow) : Frame × Frame × Frame :=
  let h0 : PdHeap := ⟨[⟨rows, []⟩]⟩
  let res := deriveSamples h0 0
  (res.1.get 0, res.1.get res.2.1, res.1.get res.2.2)

/-!
Layer construction (lines 77-135), view state (lines 137-145) and the
sidebar controls (lines 12-17).
-/

/-- The data handed to a layer: which frame or list it renders. -/
inductive DataSource
  | treesData (rows : List TreeRow)
  | frameData (f : Frame)
  | forestData (polys : List ForestPolygon)
deriving DecidableEq, Repr

/-- A pydeck layer descriptor; unset keyword arguments are `none`. -/
structure Layer where
  kind : String
  source : DataSource
  get_position : Option (List String) := none
  radius : Option ℤ := none
  elevation_scale : Option ℤ := none
  elevation_range : Option (List ℤ) := none
  extruded : Option Bool := none
  coverage : Option ℤ := none
  color_range : Option (List (List ℤ)) := none
  get_radius : Option ℤ := none
  get_fill_color : Option (List ℤ) := none
  get_line_color : Option (List ℤ) := none
  get_polygon : Option String := none
  get_weight : Option String := none
  pickable : Option Bool := none
deriving DecidableEq, Repr

/-- Lines 77-135: build the five layer descriptors and select by view
mode; `radius` and `elevation_scale` come from the sidebar sliders. -/
def create_layer (view_option : String) (radius elevation_scale : ℤ)
    (df_trees : List TreeRow) (forestPolys : List ForestPolygon)
    (df_temp df_aqi : Frame) : List Layer :=
  let hex_layer : Layer :=
    { kind := "HexagonLayer", source := .treesData df_trees,
      get_position := some ["lon", "lat"], radius := some radius,
      elevation_scale := some elevation_scale,
      elevation_range := some [0, 1000], extruded := some true,
      coverage := some 1,
      color_range := some [[0, 50, 0], [100, 200, 100], [150, 255, 150],
        [255, 255, 100], [255, 100, 50], [255, 0, 0]],
      pickable := some true }
  let canopy_layer : Layer :=
    { kind := "ScatterplotLayer", source := .treesData df_trees,
      get_position := some ["lon", "lat"], get_radius := some 5,
      get_fill_color := some [0, 0, 255, 255], pickable := some true }
  let forest_layer : Layer :=
    { kind := "PolygonLayer", source := .forestData forestPolys,
      get_polygon := some "coordinates",
      get_fill_color := some [0, 100, 0, 150],
      get_line_color := some [0, 50, 0, 200], pickable := some true }
  let heat_layer : Layer :=
    { kind := "HeatmapLayer", source := .frameData df_temp,
      get_position := some ["lon", "lat"], get_weight := some "temperature",
      radius := some (radius * 2) }
  let aqi_layer : Layer :=
    { kind := "HeatmapLayer", source := .frameData df_aqi,
      get_position := some ["lon", "lat"], get_weight := some "aqi",
      radius := some (radius * 2),
      color_range := some [[0, 0, 255, 255], [0, 255, 255, 255],
        [0, 255, 0, 255], [255, 255, 0, 255], [255, 0, 0, 255]] }
  if view_option = "Tree Density" then [hex_layer]
  else if view_option = "Tree Canopy Coverage" then [canopy_layer, forest_layer]
  else if view_option = "Heat Island Effect" then [heat_layer]
  else if view_option = "Air Quality Correlation" then [aqi_layer]
  else []

/-- A layer with its data source blanked, leaving only the layer kind
and visual-encoding parameters. -/
def Layer.visual (l : Layer) : Layer :=
  { l with source := DataSource.treesData [] }

/-- Lines 137-138: `create_layer` is invoked only when `df_trees` is
non-empty; otherwise no layer list exists at all. -/
def renderedLayers (view_option : String) (radius elevation_scale : ℤ)
    (df_trees : List TreeRow) (forestPolys : List ForestPolygon)
    (df_temp df_aqi : Frame) : Option (List Layer) :=
  if df_trees.isEmpty then none
  else some (create_layer view_option radius elevation_scale df_trees forestPolys df_temp df_aqi)

/-- The camera descriptor of lines 139-145. -/
structure ViewState where
  longitude : ℚ
  latitude : ℚ
  zoom : ℤ
  pitch : ℤ
  bearing : ℤ
deriving DecidableEq, Repr

/-- `Series.mean()` on a rational column. -/
def seriesMean (l : List ℚ) : ℚ :=
  l.sum / (l.length : ℚ)

/-- Lines 137-145: the view state is built only inside
`if not df_trees.empty:`; the inner conditionals are kept as written. -/
def view_state (df_trees : List TreeRow) (pitch bearing : ℤ) : Option ViewState :=
  if df_trees.isEmpty then none
  else some
    { longitude := if ¬ df_trees.isEmpty then seriesMean (df_trees.map (·.lon)) else -73.95
      latitude := if ¬ df_trees.isEmpty then seriesMean (df_trees.map (·.lat)) else 40.75
      zoom := 12
      pitch := pitch
      bearing := bearing }

/-- A sidebar slider: label, minimum, maximum, initial value. -/
structure SliderSpec where
  label : String
  minVal : ℤ
  maxVal : ℤ
  initVal : ℤ
deriving DecidableEq, Repr

/-- Line 12: the view-mode radio options. -/
def view_options : List String :=
  ["Tree Density", "Tree Canopy Coverage", "Heat Island Effect",
   "Air Quality Correlation"]

/-- Line 14: `st.slider("Hexagon Radius (meters)", 50, 200, 50)`. -/
def radius_slider : SliderSpec :=
  ⟨"Hexagon Radius (meters)", 50, 200, 50⟩

/-- Line 15: `st.slider("Elevation Scale", 5, 20, 5)`. -/
def elevation_slider : SliderSpec :=
  ⟨"Elevation Scale", 5, 20, 5⟩

/-- Line 17: `st.slider("Map Bearing", 0, 360, 0)`. -/
def bearing_slider : SliderSpec :=
  ⟨"Map Bearing", 0, 360, 0⟩

/-- All sliders the sidebar declares (lines 13-17). -/
def sidebar_sliders : List SliderSpec :=
  [radius_slider, elevation_slider, bearing_slider]

/-- Line 13: `zoom_level = 12`, a constant, not a slider. -/
def zoom_level : ℤ := 12

/-- Line 16: `pitch = 45 if view_option == "Tree Density" else 0`. -/
def pitchFor (view_option : String) : ℤ :=
  if view_option = "Tree Density" then 45 else 0

/-- An element shaped into a row carries exactly that row's values. -/
theorem elemToRow_eq_some {e : OsmElement} {r : TreeRow}
    (h : elemToRow e = some r) : e.lat = some r.lat ∧ e.lon = some r.lon := by
  cases hla : e.lat with
  | none => simp [elemToRow, hla] at h
  | some la =>
    cases hlo : e.lon with
    | none => simp [elemToRow, hla, hlo] at h
    | some lo =>
      simp only [elemToRow, hla, hlo, Option.some.injEq] at h
      subst h
      exact ⟨rfl, rfl⟩

/-- An element shaped into a polygon carries that single ring. -/
theorem elemToPolygon_eq_some {e : OsmElement} {p : ForestPolygon}
    (h : elemToPolygon e = some p) :
    ∃ g, e.geometry = some g ∧ p.coordinates = [g.map fun pt => (pt.lon, pt.lat)] := by
  cases hg : e.geometry with
  | none => simp [elemToPolygon, hg] at h
  | some g =>
    simp only [elemToPolygon, hg, Option.some.injEq] at h
    exact ⟨g, rfl, by rw [← h]⟩

/-- Claim C1, counterexample: in the response
`[{lat: 40.75, lon: -73.95}, {}]` the first element carries both `lat`
and `lon`, yet the shaping step produces no row at all for it: the
comprehension raises `KeyError` on the second element, so no row list
exists, contradicting the claim that each well-formed element yields
exactly one preserved row. -/
theorem c1_shaping_crashes_on_mixed_response :
    (OsmElement.mk (some 40.75) (some (-73.95)) none).lat = some 40.75 ∧
    (OsmElement.mk (some 40.75) (some (-73.95)) none).lon = some (-73.95) ∧
    ¬ ∃ rows, tree_locations
        [⟨some 40.75, some (-73.95), none⟩, ⟨none, none, none⟩] = some rows := by
  refine ⟨rfl, rfl, ?_⟩
  rintro ⟨rows, h⟩
  simp [tree_locations, optionMapList, elemToRow] at h

/-- Claim C1, amended: when every element of the response carries both
`lat` and `lon`, record shaping succeeds and produces exactly one row
per element, in response order, with `lat` and `lon` unchanged; an
element missing either field makes the whole shaping step fail. -/
theorem c1_tree_rows_preserve_lat_lon (elements : List OsmElement)
    (h : ∀ e ∈ elements, e.lat.isSome ∧ e.lon.isSome) :
    ∃ rows, tree_locations elements = some rows ∧
      List.Forall₂ (fun e r => e.lat = some r.lat ∧ e.lon = some r.lon)
        elements rows := by
  have hall : ∀ a ∈ elements, (elemToRow a).isSome := by
    intro a ha
    obtain ⟨h1, h2⟩ := h a ha
    obtain ⟨la, hla⟩ := Option.isSome_iff_exists.mp h1
    obtain ⟨lo, hlo⟩ := Option.isSome_iff_exists.mp h2
    simp [elemToRow, hla, hlo]
  obtain ⟨rows, hrows, hfa⟩ := optionMapList_all_some elemToRow elements hall
  exact ⟨rows, hrows, hfa.imp fun a b hab => elemToRow_eq_some hab⟩

/-- Claim C1, witness: the spec example response with the single
element `{lat: 40.75, lon: -73.95}` shapes to exactly one row with the
same values. -/
theorem c1_tree_rows_preserve_lat_lon_witness :
    ∃ rows, tree_locations [⟨some 40.75, some (-73.95), none⟩] = some rows ∧
      List.Forall₂ (fun e r => e.lat = some r.lat ∧ e.lon = some r.lon)
        [OsmElement.mk (some 40.75) (some (-73.95)) none] rows :=
  c1_tree_rows_preserve_lat_lon [⟨some 40.75, some (-73.95), none⟩]
    (by intro e he; simp at he; subst he; exact ⟨rfl, rfl⟩)

/-- Claim C2, counterexample: in the response
`[{geometry: [{lat: 1, lon: 2}]}, {}]` the second element lacks
`geometry`; the code does not skip it: the comprehension raises
`KeyError`, so no polygon list is produced at all, not even for the
first element that does have `geometry`. -/
theorem c2_shaping_crashes_on_missing_geometry :
    (OsmElement.mk none none none).geometry = none ∧
    ¬ ∃ polys, forest_polygons
        [⟨none, none, some [⟨1, 2⟩]⟩, ⟨none, none, none⟩] = some polys := by
  refine ⟨rfl, ?_⟩
  rintro ⟨polys, h⟩
  simp [forest_polygons, optionMapList, elemToPolygon] at h

/-- Claim C2, amended: when every element of the forest response has a
`geometry` field, shaping succeeds and produces exactly one polygon
ring per element, in order; an element missing `geometry` makes the
whole forest-shaping step fail with an error rather than being
skipped. -/
theorem c2_forest_polygons_require_geometry (elements : List OsmElement)
    (h : ∀ e ∈ elements, e.geometry.isSome) :
    ∃ polys, forest_polygons elements = some polys ∧
      List.Forall₂ (fun e p => ∃ g, e.geometry = some g ∧
        p.coordinates = [g.map fun pt => (pt.lon, pt.lat)]) elements polys := by
  have hall : ∀ a ∈ elements, (elemToPolygon a).isSome := by
    intro a ha
    obtain ⟨g, hg⟩ := Option.isSome_iff_exists.mp (h a ha)
    simp [elemToPolygon, hg]
  obtain ⟨polys, hpolys, hfa⟩ := optionMapList_all_some elemToPolygon elements hall
  exact ⟨polys, hpolys, hfa.imp fun a b hab => elemToPolygon_eq_some hab⟩

/-- Claim C2, witness: a one-element forest response with a two-point
geometry shapes to exactly one polygon holding its ring. -/
theorem c2_forest_polygons_require_geometry_witness :
    ∃ polys, forest_polygons [⟨none, none, some [⟨1, 2⟩, ⟨3, 4⟩]⟩] = some polys ∧
      List.Forall₂ (fun e p => ∃ g, e.geometry = some g ∧
        p.coordinates = [g.map fun pt => (pt.lon, pt.lat)])
        [OsmElement.mk none none (some [⟨1, 2⟩, ⟨3, 4⟩])] polys :=
  c2_forest_polygons_require_geometry [⟨none, none, some [⟨1, 2⟩, ⟨3, 4⟩]⟩]
    (by intro e he; simp at he; subst he; rfl)

/-- Claim C3: a non-200 response, for trees or for forests, leaves the
corresponding downstream collection exactly empty, with no error: the
shaping result is the successfully produced empty list. -/
theorem c3_non_200_yields_empty (resp : HttpResponse)
    (h : resp.status_code ≠ 200) :
    shapeTreeData resp = some [] ∧ shapeForestData resp = some [] := by
  simp [shapeTreeData, shapeForestData, h]

/-- Claim C3, witness: a 404 response yields empty tree rows and empty
forest polygons without an error. -/
theorem c3_non_200_yields_empty_witness :
    shapeTreeData ⟨404, ⟨none⟩⟩ = some [] ∧
    shapeForestData ⟨404, ⟨none⟩⟩ = some [] :=
  c3_non_200_yields_empty ⟨404, ⟨none⟩⟩ (by decide)

/-- Claim C4, counterexample: with an empty row set the script builds
no view state at all (lines 137-145 run only when `df_trees` is
non-empty), so no camera exists, let alone one equal to the default
`(-73.95, 40.75)`; the fallback branch in the source is unreachable. -/
theorem c4_no_camera_when_empty :
    ¬ ∃ vs, view_state [] 0 0 = some vs := by
  rintro ⟨vs, h⟩
  simp [view_state] at h

/-- Claim C4, amended: when at least one row exists the camera target
is the mean of the lon and lat columns with the user pitch and bearing
and zoom 12; when the row set is empty no view state is constructed at
all (the fixed default `(-73.95, 40.75)` in the source is dead code);
in particular a non-200 trees response yields an empty row set and no
camera. -/
theorem c4_camera_mean_or_absent :
    (∀ (df : List TreeRow) (p b : ℤ), df ≠ [] →
      view_state df p b = some ⟨seriesMean (df.map (·.lon)),
        seriesMean (df.map (·.lat)), 12, p, b⟩) ∧
    (∀ p b : ℤ, view_state [] p b = none) ∧
    (∀ (resp : HttpResponse) (p b : ℤ), resp.status_code ≠ 200 →
      ∃ rows, shapeTreeData resp = some rows ∧ view_state rows p b = none) := by
  refine ⟨?_, ?_, ?_⟩
  · intro df p b hdf
    simp [view_state, List.isEmpty_iff, hdf]
  · intro p b
    simp [view_state]
  · intro resp p b hresp
    exact ⟨[], by simp [shapeTreeData, hresp], by simp [view_state]⟩

/-- Claim C4, witness: the spec example row set `[{lat: 40.75,
lon: -73.95}]` gives the camera `(-73.95, 40.75)` as its mean, and a
500 trees response gives empty rows and no camera. -/
theorem c4_camera_mean_or_absent_witness :
    view_state [⟨40.75, -73.95⟩] 0 0 = some ⟨-73.95, 40.75, 12, 0, 0⟩ ∧
    (∃ rows, shapeTreeData ⟨500, ⟨none⟩⟩ = some rows ∧
      view_state rows 0 0 = none) := by
  constructor
  · rw [c4_camera_mean_or_absent.1 [⟨40.75, -73.95⟩] 0 0 (by simp)]
    norm_num [seriesMean]
  · exact c4_camera_mean_or_absent.2.2 ⟨500, ⟨none⟩⟩ 0 0 (by decide)

/-- Claim C5: in the derived frames, the temperature at row index `i`
is `30 - (i mod 5)` and the AQI at row index `i` is `100 - (i mod 50)`. -/
theorem c5_derived_sample_formulas (rows : List TreeRow) (i : ℕ)
    (hi : i < rows.length) :
    Frame.colVal (runDerivation rows).2.1 "temperature" i
      = some ((30 : ℚ) - ((i % 5 : ℕ) : ℚ)) ∧
    Frame.colVal (runDerivation rows).2.2 "aqi" i
      = some ((100 : ℚ) - ((i % 50 : ℕ) : ℚ)) := by
  have h1 : (runDerivation rows).2.1
      = ⟨rows, [("temperature", tempColumn rows.length)]⟩ := rfl
  have h2 : (runDerivation rows).2.2
      = ⟨rows, [("aqi", aqiColumn rows.length)]⟩ := rfl
  rw [h1, h2]
  constructor
  · simp [Frame.colVal, List.lookup, tempColumn, List.getElem?_map]
    exact ⟨i, by simp [hi], rfl⟩
  · simp [Frame.colVal, List.lookup, aqiColumn, List.getElem?_map]
    exact ⟨i, by simp [hi], rfl⟩

/-- Claim C5, witness: with one row, row index 0 gets temperature 30
and AQI 100. -/
theorem c5_derived_sample_formulas_witness :
    Frame.colVal (runDerivation [⟨1, 2⟩]).2.1 "temperature" 0 = some 30 ∧
    Frame.colVal (runDerivation [⟨1, 2⟩]).2.2 "aqi" 0 = some 100 := by
  obtain ⟨ht, ha⟩ := c5_derived_sample_formulas [⟨1, 2⟩] 0 (by decide)
  rw [ht, ha]
  norm_num

/-- Claim C9: deriving the samples leaves `df_trees` exactly as built
from the shaped rows with no extra column, and the two derived frames
are copies holding the same rows (hence the same lat/lon values)
extended with exactly one new column each. -/
theorem c9_derivation_leaves_trees_unchanged (rows : List TreeRow) :
    (runDerivation rows).1 = ⟨rows, []⟩ ∧
    (runDerivation rows).2.1 = ⟨rows, [("temperature", tempColumn rows.length)]⟩ ∧
    (runDerivation rows).2.2 = ⟨rows, [("aqi", aqiColumn rows.length)]⟩ :=
  ⟨rfl, rfl, rfl⟩

/-- Every temperature sample lies in `[26, 30]`. -/
theorem mem_tempColumn_bounds {n : ℕ} {x : ℚ} (h : x ∈ tempColumn n) :
    26 ≤ x ∧ x ≤ 30 := by
  simp only [tempColumn, List.mem_map, List.mem_range] at h
  obtain ⟨i, _, rfl⟩ := h
  have h4 : ((i % 5 : ℕ) : ℚ) ≤ 4 := by
    exact_mod_cast Nat.lt_succ_iff.mp (Nat.mod_lt i (by norm_num))
  have h0 : (0 : ℚ) ≤ ((i % 5 : ℕ) : ℚ) := by positivity
  constructor <;> linarith

/-- Every AQI sample lies in `[51, 100]`. -/
theorem mem_aqiColumn_bounds {n : ℕ} {x : ℚ} (h : x ∈ aqiColumn n) :
    51 ≤ x ∧ x ≤ 100 := by
  simp only [aqiColumn, List.mem_map, List.mem_range] at h
  obtain ⟨i, _, rfl⟩ := h
  have h4 : ((i % 50 : ℕ) : ℚ) ≤ 49 := by
    exact_mod_cast Nat.lt_succ_iff.mp (Nat.mod_lt i (by norm_num))
  have h0 : (0 : ℚ) ≤ ((i % 50 : ℕ) : ℚ) := by positivity
  constructor <;> linarith

/-- Claim C10: whatever the number of rows, every derived temperature
value lies in `[26, 30]` and every derived AQI value lies in
`[51, 100]`. -/
theorem c10_derived_sample_bounds (rows : List TreeRow) (i : ℕ) (x : ℚ) :
    (Frame.colVal (runDerivation rows).2.1 "temperature" i = some x →
      26 ≤ x ∧ x ≤ 30) ∧
    (Frame.colVal (runDerivation rows).2.2 "aqi" i = some x →
      51 ≤ x ∧ x ≤ 100) := by
  have h1 : (runDerivation rows).2.1
      = ⟨rows, [("temperature", tempColumn rows.length)]⟩ := rfl
  have h2 : (runDerivation rows).2.2
      = ⟨rows, [("aqi", aqiColumn rows.length)]⟩ := rfl
  rw [h1, h2]
  constructor
  · intro hx
    simp only [Frame.colVal, List.lookup] at hx
    exact mem_tempColumn_bounds (by
      simpa using List.get?_mem (by simpa using hx))
  · intro hx
    simp only [Frame.colVal, List.lookup] at hx
    exact mem_aqiColumn_bounds (by
      simpa using List.get?_mem (by simpa using hx))

/-- Claim C10, witness: with one row, the index-0 temperature 30 and
AQI 100 satisfy the bounds. -/
theorem c10_derived_sample_bounds_witness :
    (26 : ℚ) ≤ 30 ∧ (30 : ℚ) ≤ 30 ∧ (51 : ℚ) ≤ 100 ∧ (100 : ℚ) ≤ 100 := by
  have hb := c10_derived_sample_bounds [⟨1, 2⟩] 0
  have ht := (hb 30).1 (by
    rw [(c9_derivation_leaves_trees_unchanged [⟨1, 2⟩]).2.1]
    norm_num [Frame.colVal, List.lookup, tempColumn])
  have ha := (hb 100).2 (by
    rw [(c9_derivation_leaves_trees_unchanged [⟨1, 2⟩]).2.2]
    norm_num [Frame.colVal, List.lookup, aqiColumn])
  exact ⟨ht.1, ht.2, ha.1, ha.2⟩

/-- Claim C6: layer selection is a pure function of the mode: "Tree
Density" yields exactly one hexagon layer, "Tree Canopy Coverage" a
scatter plus a polygon layer, "Heat Island Effect" one heatmap
weighted by temperature, "Air Quality Correlation" one heatmap
weighted by AQI; and for every mode the kinds and visual-encoding
parameters are independent of the tree, forest, temperature and AQI
data handed in. -/
theorem c6_layer_selection_by_mode :
    (∀ (r es : ℤ) (dt : List TreeRow) (fp : List ForestPolygon) (tmp aq : Frame),
      (create_layer "Tree Density" r es dt fp tmp aq).map (·.kind)
        = ["HexagonLayer"] ∧
      (create_layer "Tree Canopy Coverage" r es dt fp tmp aq).map (·.kind)
        = ["ScatterplotLayer", "PolygonLayer"] ∧
      (create_layer "Heat Island Effect" r es dt fp tmp aq).map (·.kind)
        = ["HeatmapLayer"] ∧
      (create_layer "Heat Island Effect" r es dt fp tmp aq).map (·.get_weight)
        = [some "temperature"] ∧
      (create_layer "Air Quality Correlation" r es dt fp tmp aq).map (·.kind)
        = ["HeatmapLayer"] ∧
      (create_layer "Air Quality Correlation" r es dt fp tmp aq).map (·.get_weight)
        = [some "aqi"]) ∧
    (∀ (mode : String) (r es : ℤ) (dt dt2 : List TreeRow)
      (fp fp2 : List ForestPolygon) (tmp tmp2 aq aq2 : Frame),
      (create_layer mode r es dt fp tmp aq).map Layer.visual
        = (create_layer mode r es dt2 fp2 tmp2 aq2).map Layer.visual) := by
  constructor
  · intro r es dt fp tmp aq
    refine ⟨?_, ?_, ?_, ?_, ?_, ?_⟩ <;> simp [create_layer]
  · intro mode r es dt dt2 fp fp2 tmp tmp2 aq aq2
    simp only [create_layer]
    split_ifs <;> rfl

/-- Claim C7: a rendered layer list exists and is non-empty exactly
when the tree row set is non-empty: the layer-building step runs only
behind the non-empty guard, and each of the four modes then returns a
non-empty fixed layer list. -/
theorem c7_layers_nonempty_iff_rows (mode : String)
    (hmode : mode ∈ view_options) (r es : ℤ) (dt : List TreeRow)
    (fp : List ForestPolygon) (tmp aq : Frame) :
    (∃ l, renderedLayers mode r es dt fp tmp aq = some l ∧ l ≠ [])
      ↔ dt ≠ [] := by
  constructor
  · rintro ⟨l, hl, hne⟩ hdt
    simp [renderedLayers, hdt] at hl
  · intro hdt
    refine ⟨create_layer mode r es dt fp tmp aq,
      by simp [renderedLayers, List.isEmpty_iff, hdt], ?_⟩
    simp only [view_options, List.mem_cons, List.mem_singleton] at hmode
    rcases hmode with rfl | rfl | rfl | rfl | h
    · simp [create_layer]
    · simp [create_layer]
    · simp [create_layer]
    · simp [create_layer]
    · simp at h

/-- Claim C7, witness: in mode "Tree Density" with one row, a
non-empty layer list is rendered, and the equivalence instantiates. -/
theorem c7_layers_nonempty_iff_rows_witness :
    (∃ l, renderedLayers "Tree Density" 50 5 [⟨1, 2⟩] [] ⟨[], []⟩ ⟨[], []⟩
        = some l ∧ l ≠ []) ↔ ([TreeRow.mk 1 2] : List TreeRow) ≠ [] :=
  c7_layers_nonempty_iff_rows "Tree Density" (by simp [view_options])
    50 5 [⟨1, 2⟩] [] ⟨[], []⟩ ⟨[], []⟩

/-- Claim C8, counterexample: the sidebar declares no slider with
range 10-18 (zoom), none with range 50-1000 (radius), none with range
5-100 (elevation scale) and none with range 0-60 (pitch): the radius
slider tops out at 200 and the elevation slider at 20, zoom is the
constant 12 and pitch is derived from the view mode, so the claimed
control set does not match the code. -/
theorem c8_claimed_sliders_absent :
    (¬ ∃ s ∈ sidebar_sliders, s.minVal = 10 ∧ s.maxVal = 18) ∧
    (¬ ∃ s ∈ sidebar_sliders, s.minVal = 50 ∧ s.maxVal = 1000) ∧
    (¬ ∃ s ∈ sidebar_sliders, s.minVal = 5 ∧ s.maxVal = 100) ∧
    (¬ ∃ s ∈ sidebar_sliders, s.minVal = 0 ∧ s.maxVal = 60) ∧
    radius_slider.maxVal = 200 ∧ elevation_slider.maxVal = 20 := by
  decide

/-- Claim C8, amended: the user-controlled inputs are a view-mode
selection over four modes plus sliders radius 50-200, elevation scale
5-20 and bearing 0-360; zoom is the constant 12 (not a slider), pitch
is 45 in mode "Tree Density" and 0 otherwise (not a slider), and any
view state built carries zoom 12 and the pitch and bearing values
directly. -/
theorem c8_sidebar_controls :
    view_options = ["Tree Density", "Tree Canopy Coverage",
      "Heat Island Effect", "Air Quality Correlation"] ∧
    sidebar_sliders = [⟨"Hexagon Radius (meters)", 50, 200, 50⟩,
      ⟨"Elevation Scale", 5, 20, 5⟩, ⟨"Map Bearing", 0, 360, 0⟩] ∧
    zoom_level = 12 ∧
    pitchFor "Tree Density" = 45 ∧ pitchFor "Tree Canopy Coverage" = 0 ∧
    pitchFor "Heat Island Effect" = 0 ∧ pitchFor "Air Quality Correlation" = 0 ∧
    (∀ (df : List TreeRow) (p b : ℤ) (vs : ViewState),
      view_state df p b = some vs →
        vs.zoom = zoom_level ∧ vs.pitch = p ∧ vs.bearing = b) := by
  refine ⟨rfl, rfl, rfl, by decide, by decide, by decide, by decide, ?_⟩
  intro df p b vs h
  by_cases hdf : df.isEmpty
  · simp [view_state, hdf] at h
  · simp [view_state, hdf] at h
    subst h
    exact ⟨rfl, rfl, rfl⟩

/-- Claim C8, witness: a one-row view state with pitch 45 and bearing
90 carries zoom 12 and those values unchanged. -/
theorem c8_sidebar_controls_witness :
    ∃ vs, view_state [⟨1, 2⟩] 45 90 = some vs ∧
      vs.zoom = zoom_level ∧ vs.pitch = 45 ∧ vs.bearing = 90 := by
  have h : view_state [⟨1, 2⟩] 45 90 = some ⟨2, 1, 12, 45, 90⟩ := by
    norm_num [view_state, seriesMean]
  exact ⟨⟨2, 1, 12, 45, 90⟩, h,
    c8_sidebar_controls.2.2.2.2.2.2.2 [⟨1, 2⟩] 45 90 ⟨2, 1, 12, 45, 90⟩ h⟩
